import Mathlib

/-!
A verification development for the `python-webfinger` library.

The Python source is shallowly embedded: Python values appearing in JRD
documents are modelled by the inductive type `PyVal`; Python dictionaries are
insertion-ordered association lists with string keys (Python preserves
insertion order and overwrites in place); exceptions are modelled by the
`Except PyErr` monad, and methods that mutate a `WebFingerJRD` object in
place are modelled as functions returning the updated object together with
the raised exception, if any (an exception leaves the partially mutated
object behind, exactly as in Python).

Embedded modules:
  - `webfinger/utils.py` (`is_uri`)
  - `webfinger/objects/__init__.py` (`REL_NAMES`, `RELS`)
  - `webfinger/objects/link.py` (`WebFingerLink`)
  - `webfinger/objects/jrd.py` (`WebFingerJRD`)
  - `webfinger/client/__init__.py` and `webfinger/client/requests.py`
    (content-type dispatch and `finger` request construction; the HTTP
    transport itself is an external collaborator and is not modelled)
-/

/-- A Python value, as needed by the JRD object model: strings, integers,
booleans, `None`, lists, and (string-keyed, insertion-ordered) dicts. -/
inductive PyVal where
  | pstr : String → PyVal
  | pint : Int → PyVal
  | pbool : Bool → PyVal
  | pnone : PyVal
  | plist : List PyVal → PyVal
  | pdict : List (String × PyVal) → PyVal
deriving Repr

mutual

def PyVal.decEq : (a b : PyVal) → Decidable (a = b)
  | .pstr x, .pstr y =>
    match String.decEq x y with
    | isTrue h => isTrue (by rw [h])
    | isFalse h => isFalse (by intro he; cases he; exact h rfl)
  | .pint x, .pint y =>
    match Int.decEq x y with
    | isTrue h => isTrue (by rw [h])
    | isFalse h => isFalse (by intro he; cases he; exact h rfl)
  | .pbool x, .pbool y =>
    match Bool.decEq x y with
    | isTrue h => isTrue (by rw [h])
    | isFalse h => isFalse (by intro he; cases he; exact h rfl)
  | .pnone, .pnone => isTrue rfl
  | .plist xs, .plist ys =>
    match PyVal.decEqList xs ys with
    | isTrue h => isTrue (by rw [h])
    | isFalse h => isFalse (by intro he; cases he; exact h rfl)
  | .pdict xs, .pdict ys =>
    match PyVal.decEqPairs xs ys with
    | isTrue h => isTrue (by rw [h])
    | isFalse h => isFalse (by intro he; cases he; exact h rfl)
  | .pstr _, .pint _ => isFalse nofun
  | .pstr _, .pbool _ => isFalse nofun
  | .pstr _, .pnone => isFalse nofun
  | .pstr _, .plist _ => isFalse nofun
  | .pstr _, .pdict _ => isFalse nofun
  | .pint _, .pstr _ => isFalse nofun
  | .pint _, .pbool _ => isFalse nofun
  | .pint _, .pnone => isFalse nofun
  | .pint _, .plist _ => isFalse nofun
  | .pint _, .pdict _ => isFalse nofun
  | .pbool _, .pstr _ => isFalse nofun
  | .pbool _, .pint _ => isFalse nofun
  | .pbool _, .pnone => isFalse nofun
  | .pbool _, .plist _ => isFalse nofun
  | .pbool _, .pdict _ => isFalse nofun
  | .pnone, .pstr _ => isFalse nofun
  | .pnone, .pint _ => isFalse nofun
  | .pnone, .pbool _ => isFalse nofun
  | .pnone, .plist _ => isFalse nofun
  | .pnone, .pdict _ => isFalse nofun
  | .plist _, .pstr _ => isFalse nofun
  | .plist _, .pint _ => isFalse nofun
  | .plist _, .pbool _ => isFalse nofun
  | .plist _, .pnone => isFalse nofun
  | .plist _, .pdict _ => isFalse nofun
  | .pdict _, .pstr _ => isFalse nofun
  | .pdict _, .pint _ => isFalse nofun
  | .pdict _, .pbool _ => isFalse nofun
  | .pdict _, .pnone => isFalse nofun
  | .pdict _, .plist _ => isFalse nofun

def PyVal.decEqList : (xs ys : List PyVal) → Decidable (xs = ys)
  | [], [] => isTrue rfl
  | [], _ :: _ => isFalse nofun
  | _ :: _, [] => isFalse nofun
  | x :: xs, y :: ys =>
    match PyVal.decEq x y, PyVal.decEqList xs ys with
    | isTrue h1, isTrue h2 => isTrue (by rw [h1, h2])
    | isFalse h1, _ => isFalse (by intro he; cases he; exact h1 rfl)
    | _, isFalse h2 => isFalse (by intro he; cases he; exact h2 rfl)

def PyVal.decEqPairs : (xs ys : List (String × PyVal)) → Decidable (xs = ys)
  | [], [] => isTrue rfl
  | [], _ :: _ => isFalse nofun
  | _ :: _, [] => isFalse nofun
  | (k, v) :: xs, (k2, v2) :: ys =>
    match String.decEq k k2, PyVal.decEq v v2, PyVal.decEqPairs xs ys with
    | isTrue h1, isTrue h2, isTrue h3 => isTrue (by rw [h1, h2, h3])
    | isFalse h1, _, _ => isFalse (by intro he; cases he; exact h1 rfl)
    | _, isFalse h2, _ => isFalse (by intro he; cases he; exact h2 rfl)
    | _, _, isFalse h3 => isFalse (by intro he; cases he; exact h3 rfl)

end

instance : DecidableEq PyVal := PyVal.decEq

/-- Python exceptions seen by this library: `WebFingerJRDError` and
`WebFingerContentError` from `webfinger/exceptions.py`, plus the relevant
builtin exceptions that can escape the code as written. -/
inductive PyErr where
  | jrdError : String → PyErr
  | contentError : String → PyErr
  | typeError : String → PyErr
  | keyError : String → PyErr
  | attributeError : String → PyErr
  | nameError : String → PyErr
  | assertionError : String → PyErr
deriving DecidableEq, Repr

/-- Lookup in a Python dict (first matching key; keys built through
`alistSet` are unique, so this is ordinary dict lookup). -/
def alistGet {β : Type} (d : List (String × β)) (k : String) : Option β :=
  List.lookup k d

/-- Python dict item assignment: overwrite in place (keeping the position
of the first occurrence of the key) or append at the end when the key is
absent (Python dicts preserve insertion order). -/
def alistSet {β : Type} : List (String × β) → String → β → List (String × β)
  | [], k, v => [(k, v)]
  | kv :: rest, k, v =>
    if kv.1 = k then (k, v) :: rest
    else kv :: alistSet rest k v

/-- String emptiness over the character list (reduces in the kernel, unlike
`String.isEmpty`). -/
def strEmpty (s : String) : Bool :=
  s.data.isEmpty

/-- `s.startsWith pre` over the character lists. -/
def strStartsWith (s pre : String) : Bool :=
  pre.data.isPrefixOf s.data

/-- Python truthiness, as used by `if type:` in `add_link` and by
`if not host:` / `if rel:` in the client. -/
def pyTruthy : PyVal → Bool
  | .pstr s => !strEmpty s
  | .pint n => n != 0
  | .pbool b => b
  | .pnone => false
  | .plist l => !l.isEmpty
  | .pdict d => !d.isEmpty

/-- Python iteration `for x in v`: lists yield their elements, strings yield
one-character strings, dicts yield their keys; other values raise
`TypeError`. -/
def pyIter : PyVal → Except PyErr (List PyVal)
  | .plist l => .ok l
  | .pstr s => .ok (s.toList.map (fun c => .pstr (String.singleton c)))
  | .pdict d => .ok (d.map (fun kv => .pstr kv.1))
  | .pint _ => .error (.typeError "int object is not iterable")
  | .pbool _ => .error (.typeError "bool object is not iterable")
  | .pnone => .error (.typeError "NoneType object is not iterable")

/-- Whether a Python value may be used as a dict key (lists and dicts are
unhashable). -/
def PyVal.hashable : PyVal → Bool
  | .pstr _ => true
  | .pint _ => true
  | .pbool _ => true
  | .pnone => true
  | .plist _ => false
  | .pdict _ => false

/-- Python membership `c in v` for a one-character string `c`: substring
containment for strings, element membership for lists, key membership for
dicts; `TypeError` for non-iterable values. Used by `build`
(`"@" not in subject`) and by `is_uri` applied to a non-string `rel` in
`add_link` (`":" in rel`). -/
def pyContains (v : PyVal) (c : Char) : Except PyErr Bool :=
  match v with
  | .pstr s => .ok (s.data.any (fun x => x = c))
  | .plist l => .ok (l.any (fun x => x = PyVal.pstr (String.singleton c)))
  | .pdict d => .ok (d.any (fun kv => kv.1 = String.singleton c))
  | .pint _ => .error (.typeError "argument of type int is not iterable")
  | .pbool _ => .error (.typeError "argument of type bool is not iterable")
  | .pnone => .error (.typeError "argument of type NoneType is not iterable")

/-- `isinstance(v, str)` as a boolean. -/
def PyVal.isStr : PyVal → Bool
  | .pstr _ => true
  | _ => false

/-- `webfinger.utils.is_uri`: a string is URI-shaped iff it contains a
colon. -/
def is_uri (string : String) : Bool :=
  string.data.any (fun c => c = ':')

/-- `webfinger.objects.REL_NAMES`: canonical relation URI to mnemonic. -/
def REL_NAMES : List (String × String) :=
  [("http://activitystrea.ms/spec/1.0", "activity_streams"),
   ("http://webfinger.net/rel/avatar", "avatar"),
   ("http://microformats.org/profile/hcard", "hcard"),
   ("http://specs.openid.net/auth/2.0/provider", "open_id"),
   ("http://ns.opensocial.org/2008/opensocial/activitystreams", "opensocial"),
   ("http://portablecontacts.net/spec/1.0", "portable_contacts"),
   ("http://webfinger.net/rel/profile-page", "profile"),
   ("http://webfist.org/spec/rel", "webfist"),
   ("http://gmpg.org/xfn/11", "xfn")]

/-- `webfinger.objects.RELS`: mnemonic to canonical URI (the inversion of
`REL_NAMES`, as in the source). -/
def RELS : List (String × String) :=
  REL_NAMES.map (fun kv => (kv.2, kv.1))

/-- `WebFingerLink`: its `_link` dict holds `rel` plus the validated
optional fields and the unvalidated extension fields, in insertion order. -/
structure WebFingerLink where
  _link : List (String × PyVal)
deriving DecidableEq, Repr

/-- `link.rel`, i.e. `self._link["rel"]` via `__getattr__`. The `rel` key is
always present on links built by this library; the `.pnone` default is
unreachable. -/
def WebFingerLink.rel (l : WebFingerLink) : PyVal :=
  (alistGet l._link "rel").getD .pnone

/-- `WebFingerLink.__init__`. Each keyword argument defaults to `None`
(`.pnone`); validation follows `webfinger/objects/link.py` line by line,
including the value check for `properties`, which the source writes as
`if not isinstance(v, str) or v is not None` and which therefore raises for
every value. Dict keys are strings in this model, so the
`isinstance(k, str)` guard on `titles` keys is vacuous here. -/
def WebFingerLink.init (rel type href titles properties : PyVal)
    (kwargs : List (String × PyVal)) : Except PyErr WebFingerLink := do
  let lnk : List (String × PyVal) := [("rel", rel)]
  let lnk ←
    if type = PyVal.pnone then pure lnk
    else match type with
      | .pstr _ => pure (lnk ++ [("type", type)])
      | _ => Except.error (.jrdError "type must be a string")
  let lnk ←
    if href = PyVal.pnone then pure lnk
    else match href with
      | .pstr s =>
        if ¬ is_uri s then Except.error (.jrdError "href must be a valid URI")
        else pure (lnk ++ [("href", href)])
      | _ => Except.error (.jrdError "href must be a string")
  let lnk ←
    if titles = PyVal.pnone then pure lnk
    else match titles with
      | .pdict td => do
        let _ ← td.mapM (fun kv =>
          match kv.2 with
          | PyVal.pstr _ => Except.ok ()
          | _ => Except.error (.jrdError "title language must be a string"))
        pure (lnk ++ [("titles", titles)])
      | _ => Except.error (.jrdError "titles must be a mapping")
  let lnk ←
    if properties = PyVal.pnone then pure lnk
    else match properties with
      | .pdict pd => do
        let _ ← pd.mapM (fun kv =>
          if ¬ is_uri kv.1 then
            Except.error (.jrdError "properties keys must be URIs")
          else if ¬ kv.2.isStr ∨ kv.2 ≠ PyVal.pnone then
            Except.error (.jrdError "properties values must be strings, or None")
          else Except.ok ())
        pure (lnk ++ [("properties", properties)])
      | _ => Except.error (.jrdError "properties must be a mapping")
  let lnk := kwargs.foldl (fun a kv => alistSet a kv.1 kv.2) lnk
  pure ⟨lnk⟩

/-- `WebFingerLink(**args)` for a keyword dict `args`: `rel` is a required
argument, the four named optional arguments default to `None` when absent,
and every other key lands in `**kwargs` in order. -/
def WebFingerLink.fromKwargs (args : List (String × PyVal)) :
    Except PyErr WebFingerLink :=
  match alistGet args "rel" with
  | none => .error (.typeError "missing required argument rel")
  | some rel =>
    WebFingerLink.init rel
      ((alistGet args "type").getD .pnone)
      ((alistGet args "href").getD .pnone)
      ((alistGet args "titles").getD .pnone)
      ((alistGet args "properties").getD .pnone)
      (args.filter (fun kv =>
        kv.1 ≠ "rel" ∧ kv.1 ≠ "type" ∧ kv.1 ≠ "href" ∧ kv.1 ≠ "titles" ∧
        kv.1 ≠ "properties"))

/-- `WebFingerLink(**link)` for an arbitrary value, as in the parse loop of
`WebFingerJRD.__init__`: unpacking a non-mapping raises `TypeError`. -/
def WebFingerLink.fromPy : PyVal → Except PyErr WebFingerLink
  | .pdict d => WebFingerLink.fromKwargs d
  | _ => .error (.typeError "argument after ** must be a mapping")

/-- The `WebFingerJRD` object: the raw `jrd` mapping plus the derived
attributes set by `__init__` (`subject`, `aliases`, `properties`, `links`,
`link_rels`). `aliases` and `properties` are whatever value the raw mapping
held (the source does not validate their shape), so they stay `PyVal`. -/
structure WebFingerJRD where
  jrd : List (String × PyVal)
  subject : PyVal
  aliases : PyVal
  properties : PyVal
  links : List WebFingerLink
  link_rels : List (PyVal × List WebFingerLink)
deriving DecidableEq, Repr

/-- Append a link to its bucket of the relation index, creating the bucket
at the end on first use (`OrderedDict` semantics). -/
def relsAppend (m : List (PyVal × List WebFingerLink)) (k : PyVal)
    (l : WebFingerLink) : List (PyVal × List WebFingerLink) :=
  if m.any (fun p => p.1 = k) then
    m.map (fun p => if p.1 = k then (p.1, p.2 ++ [l]) else p)
  else m ++ [(k, [l])]

/-- Bucket lookup in the relation index. -/
def relsGet (m : List (PyVal × List WebFingerLink)) (k : PyVal) :
    Option (List WebFingerLink) :=
  (m.find? (fun p => p.1 = k)).map (fun p => p.2)

/-- The index-building loop of `WebFingerJRD.__init__`: each link is keyed
by `REL_NAMES.get(link.rel, link.rel)` (canonical URI translated to its
mnemonic when one exists). `dict.get` with an unhashable key raises
`TypeError`. -/
def buildRels (links : List WebFingerLink) :
    Except PyErr (List (PyVal × List WebFingerLink)) :=
  links.foldlM (fun acc link => do
    if ¬ link.rel.hashable then
      Except.error (.typeError "unhashable type")
    else
      let key := match link.rel with
        | .pstr s =>
          match List.lookup s REL_NAMES with
          | some m => PyVal.pstr m
          | none => PyVal.pstr s
        | v => v
      pure (relsAppend acc key link)) []

/-- `WebFingerJRD.__init__(jrd)`: requires a mapping with a `subject` key,
defaults `aliases`/`properties`/`links`, parses each entry of `links` into a
`WebFingerLink`, and builds the relation index. -/
def WebFingerJRD.init (jrd : PyVal) : Except PyErr WebFingerJRD :=
  match jrd with
  | .pdict m => do
    let subject ←
      match alistGet m "subject" with
      | some s => Except.ok s
      | none => Except.error (.jrdError "subject is required in JRD")
    let aliases := (alistGet m "aliases").getD (.plist [])
    let properties := (alistGet m "properties").getD (.pdict [])
    let linkItems ← pyIter ((alistGet m "links").getD (.plist []))
    let links ← linkItems.mapM WebFingerLink.fromPy
    let link_rels ← buildRels links
    Except.ok ⟨m, subject, aliases, properties, links, link_rels⟩
  | _ => .error (.jrdError "JRD must be a Mapping")

/-- `WebFingerJRD.from_json` at the JSON value level. The method is
`json.loads(text)` followed by `__init__`; decoding is the identity on
already-decoded JSON values, so its malformed-text error branch (which
concerns raw text, not values) does not arise in the value-level model. -/
def WebFingerJRD.from_json (j : PyVal) : Except PyErr WebFingerJRD :=
  WebFingerJRD.init j

/-- `WebFingerJRD.build(subject)`. The source tests `"@" not in subject`
before its `isinstance(subject, str)` guard, so a non-iterable non-string
subject raises a builtin `TypeError` from the membership test instead of
the `WebFingerJRDError` the guard would raise. -/
def WebFingerJRD.build (subject : PyVal) : Except PyErr WebFingerJRD := do
  let hasAt ← pyContains subject '@'
  if ¬ hasAt then
    Except.error (.jrdError "subject must be in user@host format")
  else
    match subject with
    | .pstr s =>
      let s := if strStartsWith s "acct:" then s else "acct:" ++ s
      WebFingerJRD.init (.pdict [("subject", .pstr s)])
    | _ => Except.error (.jrdError "subject must be a string")

/-- Result of the `rel` query: Python `None` when no bucket matches, the
bucket itself when `attr` is omitted, or the list of attribute values. -/
inductive RelResult where
  | noneRes : RelResult
  | links : List WebFingerLink → RelResult
  | attrs : List PyVal → RelResult
deriving DecidableEq, Repr

/-- `WebFingerJRD.rel(relation, attr=None)`: translates a canonical URI to
its mnemonic via `REL_NAMES` (membership with an unhashable key raises
`TypeError`), returns `None` when no bucket matches, and with `attr` given
returns `[x[attr] for x in rel]` (a missing item raises `KeyError`). -/
def WebFingerJRD.rel (self : WebFingerJRD) (relation : PyVal)
    (attr : Option String) : Except PyErr RelResult :=
  if ¬ relation.hashable then .error (.typeError "unhashable type")
  else
    let relation := match relation with
      | .pstr s =>
        match List.lookup s REL_NAMES with
        | some m => PyVal.pstr m
        | none => PyVal.pstr s
      | v => v
    match relsGet self.link_rels relation with
    | none => .ok .noneRes
    | some lst =>
      match attr with
      | none => .ok (.links lst)
      | some a =>
        match lst.mapM (fun (l : WebFingerLink) =>
            (match alistGet l._link a with
             | some v => Except.ok v
             | none => Except.error (.keyError a) : Except PyErr PyVal)) with
        | .ok vs => .ok (.attrs vs)
        | .error e => .error e

/-- `WebFingerJRD.add_alias(alias)`. The default `"aliases": []` entry is
inserted into the raw mapping before validation, so a failed call can still
have extended the raw mapping. The raw entry and the derived `aliases`
attribute are modelled as separate sequences; in Python they are one shared
list object when the document was parsed with an `aliases` key, but every
code path here appends to both or to neither, and no claim depends on the
sharing. -/
def WebFingerJRD.add_alias (self : WebFingerJRD) (aliasArg : PyVal) :
    Option PyErr × WebFingerJRD :=
  let jrd1 := if (alistGet self.jrd "aliases").isSome then self.jrd
              else alistSet self.jrd "aliases" (.plist [])
  let self1 := { self with jrd := jrd1 }
  match aliasArg with
  | .pstr s =>
    if ¬ is_uri s then (some (.jrdError "alias must be a URI"), self1)
    else
      match self1.aliases with
      | .plist al =>
        let self2 := { self1 with aliases := .plist (al ++ [aliasArg]) }
        match alistGet self2.jrd "aliases" with
        | some (PyVal.plist jl) =>
          (none,
           { self2 with jrd := alistSet self2.jrd "aliases" (.plist (jl ++ [aliasArg])) })
        | _ => (some (.attributeError "object has no attribute append"), self2)
      | _ => (some (.attributeError "object has no attribute append"), self1)
  | _ => (some (.jrdError "alias must be a string"), self1)

/-- `WebFingerJRD.add_property(uri, value=None)`. As with `add_alias`, the
default `"properties": {}` entry is inserted before validation. -/
def WebFingerJRD.add_property (self : WebFingerJRD) (uri value : PyVal) :
    Option PyErr × WebFingerJRD :=
  let jrd1 := if (alistGet self.jrd "properties").isSome then self.jrd
              else alistSet self.jrd "properties" (.pdict [])
  let self1 := { self with jrd := jrd1 }
  match uri with
  | .pstr u =>
    if ¬ is_uri u then (some (.jrdError "uri must be a URI"), self1)
    else if ¬ (value.isStr ∨ value = PyVal.pnone) then
      (some (.jrdError "value for uri must be a string or None"), self1)
    else
      match self1.properties with
      | .pdict pd =>
        let self2 := { self1 with properties := .pdict (alistSet pd u value) }
        match alistGet self2.jrd "properties" with
        | some (PyVal.pdict jp) =>
          (none,
           { self2 with
             jrd := alistSet self2.jrd "properties" (.pdict (alistSet jp u value)) })
        | _ => (some (.typeError "object does not support item assignment"), self2)
      | _ => (some (.typeError "object does not support item assignment"), self1)
  | _ => (some (.jrdError "uri must be a string"), self1)

/-- The argument dict assembled by `add_link` before constructing the
link: `rel` plus the truthy optional fields, then `args.update(misc)` and
`args.update(kwargs)`. -/
def addLinkArgs (rel type href titles properties : PyVal)
    (misc kwargs : List (String × PyVal)) : List (String × PyVal) :=
  let args : List (String × PyVal) := [("rel", rel)]
  let args := if pyTruthy type then alistSet args "type" type else args
  let args := if pyTruthy href then alistSet args "href" href else args
  let args := if pyTruthy titles then alistSet args "titles" titles else args
  let args := if pyTruthy properties then alistSet args "properties" properties
              else args
  let args := misc.foldl (fun a kv => alistSet a kv.1 kv.2) args
  kwargs.foldl (fun a kv => alistSet a kv.1 kv.2) args

/-- `WebFingerJRD.add_link(rel, *, type=None, href=None, titles=None,
properties=None, misc=dict(), **kwargs)`. The default `"links": []` entry
is inserted before validation; `rel` is translated from a mnemonic to its
canonical URI via `RELS` and must then be URI-shaped; the argument dict is
assembled with the truthy optional fields, `misc`, and `kwargs`; a
`WebFingerLink` is constructed (propagating its validation failures); the
link is appended to `self.links` and the argument dict to the raw
`jrd["links"]`. Note: `self.link_rels` is never updated. -/
def WebFingerJRD.add_link (self : WebFingerJRD)
    (rel type href titles properties misc : PyVal)
    (kwargs : List (String × PyVal)) : Option PyErr × WebFingerJRD :=
  let jrd1 := if (alistGet self.jrd "links").isSome then self.jrd
              else alistSet self.jrd "links" (.plist [])
  let self1 := { self with jrd := jrd1 }
  if ¬ rel.hashable then (some (.typeError "unhashable type"), self1)
  else
    let rel := match rel with
      | .pstr s =>
        match List.lookup s RELS with
        | some u => PyVal.pstr u
        | none => PyVal.pstr s
      | v => v
    match pyContains rel ':' with
    | .error e => (some e, self1)
    | .ok b =>
      if ¬ b then (some (.jrdError "rel must be a valid URI"), self1)
      else
        match misc with
        | .pdict md =>
          let args := addLinkArgs rel type href titles properties md kwargs
          match WebFingerLink.fromKwargs args with
          | .error e => (some e, self1)
          | .ok link =>
            let self2 := { self1 with links := self1.links ++ [link] }
            match alistGet self2.jrd "links" with
            | some (PyVal.plist ll) =>
              (none,
               { self2 with
                 jrd := alistSet self2.jrd "links" (.plist (ll ++ [.pdict args])) })
            | _ => (some (.attributeError "object has no attribute append"), self2)
        | _ => (some (.jrdError "misc must be a mapping"), self1)

/-- `WebFingerJRD.add_misc(key, value)`: sets a raw top-level field without
validation and without touching any derived attribute. -/
def WebFingerJRD.add_misc (self : WebFingerJRD) (key : String) (value : PyVal) :
    WebFingerJRD :=
  { self with jrd := alistSet self.jrd key value }

/-- `WebFingerJRD.to_json` at the JSON value level. The method is
`json.dumps(self.jrd)`; composing the external codec the other way,
`json.loads(json.dumps(v))`, is the identity on the JSON value domain, so
serialization is modelled as returning the raw `jrd` value itself. -/
def WebFingerJRD.to_json (self : WebFingerJRD) : PyVal :=
  .pdict self.jrd

/-- An `xml.etree.ElementTree` element as built by `to_xml`: tag, attribute
dict, text (Python assigns arbitrary values to `.text`), children. -/
structure XElem where
  tag : String
  attrib : List (String × String)
  text : Option PyVal
  children : List XElem
deriving Repr

/-- The inner `serialise_property` of `to_xml`. Its `SubElement` call passes
the string `"Property"` as the parent element, so the first iteration raises
`AttributeError` (a `str` has no `makeelement`); a `properties` value that is
not a dict raises `AttributeError` at `.items()`. Only an empty dict
completes, and even then nothing is attached to `node`, so the returned
child list is empty. -/
def serialise_property (properties : PyVal) : Except PyErr (List XElem) :=
  match properties with
  | .pdict [] => .ok []
  | .pdict (_ :: _) => .error (.attributeError "str object has no attribute makeelement")
  | _ => .error (.attributeError "object has no attribute items")

/-- One iteration of the `for elem, attr in l.items()` loop of `to_xml`:
string values become XML attributes; a mapping under the key `titles` hits
the undefined name `v` in `for title, language in v.items()` and raises
`NameError`; a mapping under `properties` goes through
`serialise_property`; any other mapping key and any non-string non-mapping
value raise `WebFingerJRDError` (source messages "Can t serialise link
attribute" / "Can t serialise type into XML", apostrophes elided here). -/
def serialiseLinkItem (e : XElem) (key : String) (attr : PyVal) :
    Except PyErr XElem :=
  match attr with
  | .pstr s => .ok { e with attrib := alistSet e.attrib key s }
  | .pdict d =>
    if key.toLower = "titles" then .error (.nameError "name v is not defined")
    else if key.toLower = "properties" then do
      let children ← serialise_property (.pdict d)
      pure { e with children := e.children ++ children }
    else .error (.jrdError "Cant serialise link attribute")
  | _ => .error (.jrdError "Cant serialise type into XML")

/-- `TreeBuilder.close()`: asserts that every started element has been
ended. `to_xml` starts the `XRD` element and never ends it, so the open
stack is non-empty and `close` raises `AssertionError`. -/
def treeClose (openStack : List String) (last : Option XElem) :
    Except PyErr XElem :=
  match openStack with
  | _ :: _ => .error (.assertionError "missing end tags")
  | [] =>
    match last with
    | some e => .ok e
    | none => .error (.assertionError "missing toplevel element")

/-- Minimal XML markup escaping for `tostring`. -/
def xmlEscape (s : String) : String :=
  s.foldl (fun acc c =>
    acc ++ (if c = '<' then "&lt;"
            else if c = '>' then "&gt;"
            else if c = '&' then "&amp;"
            else String.singleton c)) ""

mutual

/-- `ElementTree.tostring` over the element model: serializing an element
whose `.text` is neither absent nor a string raises `TypeError`. In
`to_xml` this point is unreachable because `treeClose` always fails first;
the rendering (escaping, attribute order) is nominal. -/
def tostringElem : XElem → Except PyErr String
  | ⟨tag, attrib, text, children⟩ => do
    let txt ←
      match text with
      | none => pure ""
      | some (.pstr s) => pure (xmlEscape s)
      | some _ => Except.error (.typeError "cannot serialize element text")
    let inner ← tostringList children
    pure ("<" ++ tag ++
      String.join (attrib.map (fun kv =>
        " " ++ kv.1 ++ "=" ++ "\"" ++ xmlEscape kv.2 ++ "\"")) ++
      ">" ++ txt ++ inner ++ "</" ++ tag ++ ">")

def tostringList : List XElem → Except PyErr String
  | [] => pure ""
  | e :: es => do
    let s ← tostringElem e
    let r ← tostringList es
    pure (s ++ r)

end

/-- `WebFingerJRD.to_xml`. The `TreeBuilder` is used only to `start` the
`XRD` root (which is never ended); `Subject`, `Alias` and `Link` elements
are attached with `SubElement`; document properties go through the broken
`serialise_property`; finally `ElementTree.tostring(tree.close(), ...)`
runs inside a `try` whose `except Exception` clause re-raises any failure
as `WebFingerJRDError("Could not serialise into XML")`. Since `close`
always raises `AssertionError` here, every call that reaches the final
step fails. -/
def WebFingerJRD.to_xml (self : WebFingerJRD) : Except PyErr String := do
  let root : XElem :=
    { tag := "XRD",
      attrib := [("xmlns", "http://docs.oasis-open.org/ns/xri/xrd-1.0")],
      text := none, children := [] }
  let subjElem : XElem :=
    { tag := "Subject", attrib := [], text := some self.subject, children := [] }
  let root := { root with children := root.children ++ [subjElem] }
  let aliasItems ← pyIter self.aliases
  let root := aliasItems.foldl (fun r a =>
    { r with children := r.children ++
        [{ tag := "Alias", attrib := [], text := some a, children := [] }] }) root
  let propElems ← serialise_property self.properties
  let root := { root with children := root.children ++ propElems }
  let root ← self.links.foldlM (fun r l => do
    let le ← l._link.foldlM (fun e kv => serialiseLinkItem e kv.1 kv.2)
      ({ tag := "Link", attrib := [], text := none, children := [] } : XElem)
    pure { r with children := r.children ++ [le] }) root
  match treeClose ["XRD"] (some root) >>= tostringElem with
  | .ok s => .ok s
  | .error _ => .error (.jrdError "Could not serialise into XML")

/-- `BaseWebFingerClient.WEBFINGER_TYPES`: accepted content types mapped to
their quality weight (pre-rendered as Python would print it) and parser
name, in source order. -/
def WEBFINGER_TYPES : List (String × (String × String)) :=
  [("application/jrd+json", ("1", "json")),
   ("application/json", ("0.9", "json")),
   ("application/xrd+xml", ("0.5", "xml")),
   ("application/xml", ("0.4", "xml"))]

/-- `BaseWebFingerClient.USER_AGENT` with `__version__` = "3.0.0.dev1". -/
def USER_AGENT : String :=
  "Python-Webfinger/3.0.0.dev1"

/-- `BaseWebFingerClient.generate_accept_header`. -/
def generate_accept_header : String :=
  String.intercalate "; "
    (WEBFINGER_TYPES.map (fun kv => "q=" ++ kv.2.1 ++ ", " ++ kv.1))

/-- `str.split(sep)` over character lists (Python `split` with a single
character separator; always returns at least one group). -/
def splitAtChar : List Char → Char → List (List Char)
  | [], _ => [[]]
  | ch :: rest, c =>
    match splitAtChar rest c with
    | g :: gs => if ch = c then [] :: g :: gs else (ch :: g) :: gs
    | [] => if ch = c then [[], []] else [[ch]]

/-- `str.strip()` restricted to the leading and trailing ASCII whitespace
this code can meet in a Content-Type header. -/
def stripStr (s : String) : String :=
  String.mk
    (((s.data.dropWhile Char.isWhitespace).reverse.dropWhile
        Char.isWhitespace).reverse)

/-- `BaseWebFingerClient.parse_host`: `resource.split("@")[-1]` (the default
of `getLastD` is unreachable since `split` never returns an empty list). -/
def parse_host (resource : String) : String :=
  String.mk ((splitAtChar resource.data '@').getLastD resource.data)

/-- `WebFingerClient.parse_response` (requests client) up to the parser
dispatch: a missing `Content-Type` header raises `WebFingerContentError`;
the declared type is truncated at the first `;` and stripped; an
unaccepted type raises `WebFingerContentError` before the body is ever
looked at; otherwise the selected parser name (`"json"` or `"xml"`) and the
body handed to it are returned. -/
def parse_response (contentTypeHeader : Option String) (body : String) :
    Except PyErr (String × String) :=
  match contentTypeHeader with
  | none => .error (.contentError "No Content-Type from server")
  | some ct =>
    let ct := stripStr (String.mk ((splitAtChar ct.data ';').headD ct.data))
    match alistGet WEBFINGER_TYPES ct with
    | none => .error (.contentError "Unacceptable content type")
    | some qv => .ok (qv.2, body)

/-- The shared mutable default arguments of `WebFingerClient.finger`:
Python evaluates `params=dict(), headers=dict()` once at function
definition, so every call that omits the argument operates on the same
dict object. -/
structure FingerDefaults where
  params : List (String × String)
  headers : List (String × String)
deriving DecidableEq, Repr

/-- The HTTP request constructed by `finger` (url, query parameters,
headers) at the point `self.get` is invoked. -/
structure FingerRequest where
  url : String
  params : List (String × String)
  headers : List (String × String)
deriving DecidableEq, Repr

/-- `WebFingerClient.finger` up to the HTTP GET (the transport is an
external collaborator). `none` for `params`/`headers` means the argument
was omitted, selecting the shared default dict; the function returns the
constructed request together with the updated shared defaults. `host` and
`rel` are tested for truthiness (`if not host:` / `if rel:`). -/
def finger (st : FingerDefaults) (resource : String) (host : Option String)
    (rel : Option String) (params : Option (List (String × String)))
    (headers : Option (List (String × String))) :
    FingerRequest × FingerDefaults :=
  let hostv := match host with
    | some h => if strEmpty h then parse_host resource else h
    | none => parse_host resource
  let url := "https://" ++ hostv ++ "/.well-known/webfinger"
  let p0 := match params with
    | some p => p
    | none => st.params
  let p1 := alistSet p0 "resource" resource
  let p2 := match rel with
    | some r => if strEmpty r then p1 else alistSet p1 "rel" r
    | none => p1
  let h0 := match headers with
    | some h => h
    | none => st.headers
  let h1 := alistSet h0 "User-Agent" USER_AGENT
  let h2 := alistSet h1 "Accept" generate_accept_header
  let st2 : FingerDefaults :=
    { params := match params with
        | some _ => st.params
        | none => p2,
      headers := match headers with
        | some _ => st.headers
        | none => h2 }
  ({ url := url, params := p2, headers := h2 }, st2)

/-- A concrete parsed document (the result of
`WebFingerJRD({"subject": "acct:a@b"})`), used to instantiate universally
quantified theorems. -/
def sampleDoc : WebFingerJRD :=
  ⟨[("subject", .pstr "acct:a@b")], .pstr "acct:a@b", .plist [], .pdict [], [], []⟩

/-! ## Helper lemmas -/

theorem alistSet_nil {β : Type} (k : String) (v : β) :
    alistSet [] k v = [(k, v)] := rfl

theorem alistGet_cons {β : Type} (a : String) (b : β) (tl : List (String × β))
    (k : String) :
    alistGet ((a, b) :: tl) k = if k = a then some b else alistGet tl k := by
  by_cases h : k = a
  · simp [alistGet, List.lookup, h]
  · simp [alistGet, List.lookup, h, beq_eq_false_iff_ne.mpr h]

theorem alistGet_nil {β : Type} (k : String) :
    alistGet ([] : List (String × β)) k = none := rfl

theorem alistGet_alistSet_self {β : Type} (d : List (String × β)) (k : String)
    (v : β) : alistGet (alistSet d k v) k = some v := by
  induction d with
  | nil => simp [alistSet, alistGet_cons]
  | cons hd tl ih =>
    rcases hd with ⟨a, b⟩
    by_cases hk : a = k
    · simp [alistSet, hk, alistGet_cons]
    · simp [alistSet, hk, alistGet_cons, Ne.symm hk, ih]

theorem alistGet_alistSet_other {β : Type} (d : List (String × β))
    (k k2 : String) (v : β) (h : k ≠ k2) :
    alistGet (alistSet d k2 v) k = alistGet d k := by
  induction d with
  | nil => simp [alistSet, alistGet_cons, h, alistGet_nil]
  | cons hd tl ih =>
    rcases hd with ⟨a, b⟩
    by_cases hk : a = k2
    · subst hk
      simp [alistSet, alistGet_cons, h]
    · simp [alistSet, hk, alistGet_cons, ih]

/-! ## Claim theorems -/

/-- C5: parsing the empty mapping fails with the "missing subject" document
error, and parsing a mapping holding only `subject` succeeds with that
subject, empty aliases, empty properties and no links. -/
theorem parse_required_field_enforcement :
    WebFingerJRD.init (.pdict []) =
      .error (.jrdError "subject is required in JRD") ∧
    (WebFingerJRD.init (.pdict [("subject", .pstr "acct:a@b")])).map
      (fun d => (d.subject, d.aliases, d.properties, d.links)) =
      .ok (.pstr "acct:a@b", .plist [], .pdict [], ([] : List WebFingerLink)) := by
  constructor <;> rfl

/-- C6: `build` normalizes string subjects (`acct:` prepended exactly when
absent) and rejects a string without `@` with a validation error; but a
non-string, non-iterable subject (the integer 4) raises a builtin
`TypeError` from the `"@" not in subject` membership test, not the
validation error the claim requires, because the `isinstance` guard comes
second in the source. -/
theorem build_subject_normalization :
    (WebFingerJRD.build (.pstr "user@host")).map (fun d => d.subject) =
      .ok (.pstr "acct:user@host") ∧
    (WebFingerJRD.build (.pstr "acct:user@host")).map (fun d => d.subject) =
      .ok (.pstr "acct:user@host") ∧
    WebFingerJRD.build (.pstr "no-at-sign") =
      .error (.jrdError "subject must be in user@host format") ∧
    WebFingerJRD.build (.pint 4) =
      .error (.typeError "argument of type int is not iterable") := by
  refine ⟨?_, ?_, ?_, ?_⟩ <;> rfl

/-- C2: constructing a `WebFingerLink` with a properties mapping whose keys
are all URI-shaped and whose values are all strings or null fails anyway:
the source's value check `if not isinstance(v, str) or v is not None`
raises for every value (string and `None` alike), contradicting the claim
(and the error message itself). -/
theorem link_properties_rejects_valid_mapping :
    WebFingerLink.init (.pstr "http://example.com/x") .pnone .pnone .pnone
      (.pdict [("http://a", .pstr "b")]) [] =
      .error (.jrdError "properties values must be strings, or None") ∧
    WebFingerLink.init (.pstr "http://example.com/x") .pnone .pnone .pnone
      (.pdict [("http://a", .pnone)]) [] =
      .error (.jrdError "properties values must be strings, or None") := by
  constructor <;> rfl

/-- C1: a successful `add_link` on a fresh document appends to `links` but
never updates the derived relation index, so `link_rels` stays empty and
`rel` on the added relation returns `None` instead of a non-empty
sequence. -/
theorem add_link_leaves_relation_index_stale : ∃ d d1,
    WebFingerJRD.build (.pstr "a@b") = .ok d ∧
    d.add_link (.pstr "profile") .pnone (.pstr "http://example.com/a")
      .pnone .pnone (.pdict []) [] = (none, d1) ∧
    d1.links.length = 1 ∧
    d1.link_rels = [] ∧
    d1.rel (.pstr "profile") none = .ok .noneRes ∧
    d1.rel (.pstr "http://webfinger.net/rel/profile-page") none =
      .ok .noneRes := by
  refine ⟨_, _, rfl, rfl, ?_, ?_, ?_, ?_⟩ <;> rfl

/-- C8: `to_xml` fails even on the minimal document produced by `build`:
the `XRD` element started on the `TreeBuilder` is never ended, so
`tree.close()` raises and the `except` clause re-raises
`WebFingerJRDError("Could not serialise into XML")` — no input ever
serializes successfully. -/
theorem to_xml_fails_on_minimal_document : ∃ d,
    WebFingerJRD.build (.pstr "user@host") = .ok d ∧
    d.to_xml = .error (.jrdError "Could not serialise into XML") := by
  exact ⟨_, rfl, rfl⟩

theorem exceptOkBind {α β : Type} (a : α) (f : α → Except PyErr β) :
    (Except.ok a >>= f) = f a := rfl

theorem exceptErrorBind {α β : Type} (e : PyErr) (f : α → Except PyErr β) :
    ((Except.error e : Except PyErr α) >>= f) = .error e := rfl

/-- Successful parsing stores the input mapping unchanged as the raw
`jrd`. -/
theorem init_ok_jrd {J : PyVal} {d : WebFingerJRD}
    (h : WebFingerJRD.init J = .ok d) : J = .pdict d.jrd := by
  cases J with
  | pdict m =>
    simp only [WebFingerJRD.init] at h
    rcases hs : alistGet m "subject" with _ | s <;> rw [hs] at h
    · simp [exceptErrorBind] at h
    · simp only [exceptOkBind] at h
      rcases hi : pyIter ((alistGet m "links").getD (PyVal.plist [])) with e | items <;>
        rw [hi] at h
      · simp [exceptErrorBind] at h
      · simp only [exceptOkBind] at h
        rcases hl : items.mapM WebFingerLink.fromPy with e | links <;> rw [hl] at h
        · simp [exceptErrorBind] at h
        · simp only [exceptOkBind] at h
          rcases hr : buildRels links with e | rels <;> rw [hr] at h
          · simp [exceptErrorBind] at h
          · simp only [exceptOkBind] at h
            injection h with h2
            rw [← h2]
  | pstr s => simp [WebFingerJRD.init] at h
  | pint n => simp [WebFingerJRD.init] at h
  | pbool b => simp [WebFingerJRD.init] at h
  | pnone => simp [WebFingerJRD.init] at h
  | plist l => simp [WebFingerJRD.init] at h

/-- C3: for any JSON value on which parsing succeeds, parsing the
serialization of the parsed document yields a document that agrees
field for field (subject, aliases, properties, links, relation index, and
the raw mapping including extension fields). -/
theorem to_json_round_trip (J : PyVal) (d : WebFingerJRD)
    (h : WebFingerJRD.init J = .ok d) :
    ∃ d2, WebFingerJRD.from_json d.to_json = .ok d2 ∧
      d2.subject = d.subject ∧ d2.aliases = d.aliases ∧
      d2.properties = d.properties ∧ d2.links = d.links ∧
      d2.link_rels = d.link_rels ∧ d2.jrd = d.jrd := by
  have hJ := init_ok_jrd h
  refine ⟨d, ?_, rfl, rfl, rfl, rfl, rfl, rfl⟩
  simp only [WebFingerJRD.from_json, WebFingerJRD.to_json]
  rw [← hJ]
  exact h

/-- Witness for C3 at a concrete document. -/
theorem to_json_round_trip_witness :
    ∃ d2, WebFingerJRD.from_json sampleDoc.to_json = .ok d2 ∧
      d2.subject = sampleDoc.subject ∧ d2.aliases = sampleDoc.aliases ∧
      d2.properties = sampleDoc.properties ∧ d2.links = sampleDoc.links ∧
      d2.link_rels = sampleDoc.link_rels ∧ d2.jrd = sampleDoc.jrd :=
  to_json_round_trip (.pdict [("subject", .pstr "acct:a@b")]) sampleDoc rfl

/-- C7: for every (canonical URI, mnemonic) pair of the relation table,
`REL_NAMES` maps the URI to the mnemonic, `RELS` maps the mnemonic back to
the URI, and the `rel` query gives the same result for the mnemonic and the
URI on every document. -/
theorem mnemonic_symmetry (u m : String) (h : (u, m) ∈ REL_NAMES) :
    List.lookup u REL_NAMES = some m ∧
    List.lookup m RELS = some u ∧
    ∀ (d : WebFingerJRD) (attr : Option String),
      d.rel (.pstr m) attr = d.rel (.pstr u) attr := by
  fin_cases h <;> exact ⟨by decide, by decide, fun d attr => rfl⟩

/-- Witness for C7 at the profile pair and a concrete document. -/
theorem mnemonic_symmetry_witness :
    List.lookup "http://webfinger.net/rel/profile-page" REL_NAMES =
      some "profile" ∧
    List.lookup "profile" RELS = some "http://webfinger.net/rel/profile-page" ∧
    sampleDoc.rel (.pstr "profile") none =
      sampleDoc.rel (.pstr "http://webfinger.net/rel/profile-page") none := by
  obtain ⟨h1, h2, h3⟩ :=
    mnemonic_symmetry "http://webfinger.net/rel/profile-page" "profile"
      (by decide)
  exact ⟨h1, h2, h3 sampleDoc none⟩

/-- C9: a response with no `Content-Type` header, or whose declared type
(before `;`, stripped) is not one of the four accepted WebFinger types,
fails with a content error before any parser is selected or the body
looked at. -/
theorem parse_response_content_type_rejection (ct body : String)
    (h : stripStr (String.mk ((splitAtChar ct.data ';').headD ct.data)) ∉
      WEBFINGER_TYPES.map Prod.fst) :
    parse_response (some ct) body =
      .error (.contentError "Unacceptable content type") ∧
    parse_response none body =
      .error (.contentError "No Content-Type from server") := by
  refine ⟨?_, rfl⟩
  simp only [parse_response]
  have hnone : alistGet WEBFINGER_TYPES
      (stripStr (String.mk ((splitAtChar ct.data ';').headD ct.data))) = none := by
    set k := stripStr (String.mk ((splitAtChar ct.data ';').headD ct.data)) with hk
    simp only [WEBFINGER_TYPES, List.map_cons, List.map_nil, List.mem_cons,
      List.not_mem_nil, or_false] at h
    push_neg at h
    obtain ⟨h1, h2, h3, h4⟩ := h
    simp [alistGet, List.lookup, WEBFINGER_TYPES,
      beq_eq_false_iff_ne.mpr h1, beq_eq_false_iff_ne.mpr h2,
      beq_eq_false_iff_ne.mpr h3, beq_eq_false_iff_ne.mpr h4]
  rw [hnone]

/-- Witness for C9 at `text/plain`. -/
theorem parse_response_content_type_rejection_witness :
    parse_response (some "text/plain") "body" =
      .error (.contentError "Unacceptable content type") ∧
    parse_response none "body" =
      .error (.contentError "No Content-Type from server") :=
  parse_response_content_type_rejection "text/plain" "body" (by decide)

/-- C4 counterexample: a failed `add_link` (unknown, non-URI `rel`) on a
fresh built document leaves `links` unchanged but does mutate the raw
`jrd` mapping — the default `"links": []` entry is inserted before
validation — so `to_json` differs from its value before the call. -/
theorem add_link_failure_changes_raw_jrd : ∃ d d1,
    WebFingerJRD.build (.pstr "a@b") = .ok d ∧
    d.add_link (.pstr "invalid") .pnone .pnone .pnone .pnone (.pdict []) [] =
      (some (.jrdError "rel must be a valid URI"), d1) ∧
    d1.links = d.links ∧ d1.link_rels = d.link_rels ∧
    d1.jrd ≠ d.jrd ∧ d1.to_json ≠ d.to_json := by
  refine ⟨_, _, rfl, rfl, rfl, rfl, ?_, ?_⟩ <;> decide

/-- C4 (amended): when a mutation method fails with a validation error
(`WebFingerJRDError`), every derived field — subject, aliases, properties,
links (hence the length of `links`) and the relation index — is unchanged,
and the raw `jrd` mapping is unchanged except that the empty default
container for the mutated field has been inserted when it was absent (the
only deviation from the original claim: `to_json` may differ by that one
empty entry). -/
theorem failed_mutation_preserves_derived_fields (d : WebFingerJRD) :
    (∀ a e d2, d.add_alias a = (some (.jrdError e), d2) →
      d2.subject = d.subject ∧ d2.aliases = d.aliases ∧
      d2.properties = d.properties ∧ d2.links = d.links ∧
      d2.link_rels = d.link_rels ∧
      d2.jrd = (if (alistGet d.jrd "aliases").isSome then d.jrd
                else alistSet d.jrd "aliases" (.plist []))) ∧
    (∀ u v e d2, d.add_property u v = (some (.jrdError e), d2) →
      d2.subject = d.subject ∧ d2.aliases = d.aliases ∧
      d2.properties = d.properties ∧ d2.links = d.links ∧
      d2.link_rels = d.link_rels ∧
      d2.jrd = (if (alistGet d.jrd "properties").isSome then d.jrd
                else alistSet d.jrd "properties" (.pdict []))) ∧
    (∀ r t hf ti p mi kw e d2,
      d.add_link r t hf ti p mi kw = (some (.jrdError e), d2) →
      d2.subject = d.subject ∧ d2.aliases = d.aliases ∧
      d2.properties = d.properties ∧ d2.links = d.links ∧
      d2.link_rels = d.link_rels ∧
      d2.jrd = (if (alistGet d.jrd "links").isSome then d.jrd
                else alistSet d.jrd "links" (.plist []))) := by
  refine ⟨?_, ?_, ?_⟩
  · intro a e d2 h
    simp only [WebFingerJRD.add_alias] at h
    repeat' split at h
    all_goals
      rw [Prod.mk.injEq] at h
      obtain ⟨he, hd⟩ := h
      first
      | (simp at he; done)
      | (subst hd
         refine ⟨rfl, rfl, rfl, rfl, rfl, ?_⟩
         first
         | rfl
         | (split <;> simp_all))
  · intro u v e d2 h
    simp only [WebFingerJRD.add_property] at h
    repeat' split at h
    all_goals
      rw [Prod.mk.injEq] at h
      obtain ⟨he, hd⟩ := h
      first
      | (simp at he; done)
      | (subst hd
         refine ⟨rfl, rfl, rfl, rfl, rfl, ?_⟩
         first
         | rfl
         | (split <;> simp_all))
  · intro r t hf ti p mi kw e d2 h
    simp only [WebFingerJRD.add_link] at h
    repeat' split at h
    all_goals
      rw [Prod.mk.injEq] at h
      obtain ⟨he, hd⟩ := h
      first
      | (simp at he; done)
      | (subst hd
         refine ⟨rfl, rfl, rfl, rfl, rfl, ?_⟩
         first
         | rfl
         | (split <;> simp_all))

/-- Witness for the amended C4 at concrete failing calls on a concrete
document. -/
theorem failed_mutation_preserves_derived_fields_witness :
    (WebFingerJRD.add_alias sampleDoc (.pint 4)).2.links = sampleDoc.links ∧
    (WebFingerJRD.add_alias sampleDoc (.pint 4)).2.aliases =
      sampleDoc.aliases ∧
    (WebFingerJRD.add_link sampleDoc (.pstr "http://test.example") (.pint 4)
      .pnone .pnone .pnone (.pdict []) []).2.links = sampleDoc.links := by
  have h1 := (failed_mutation_preserves_derived_fields sampleDoc).1 (.pint 4)
    "alias must be a string" (WebFingerJRD.add_alias sampleDoc (.pint 4)).2
    (by decide)
  have h2 := (failed_mutation_preserves_derived_fields sampleDoc).2.2
    (.pstr "http://test.example") (.pint 4) .pnone .pnone .pnone (.pdict []) []
    "type must be a string"
    (WebFingerJRD.add_link sampleDoc (.pstr "http://test.example") (.pint 4)
      .pnone .pnone .pnone (.pdict []) []).2
    (by decide)
  exact ⟨h1.2.2.2.1, h1.2.1, h2.2.2.2.1⟩

/-- C10: the default `params` dict of `finger` is one shared mutable
mapping: a call passing `rel` while using the default stores `"rel"` into
the shared dict, so a later call omitting `rel` (also on the default)
issues a request whose query parameters still carry the earlier `rel`
value; hence two `finger` calls with identical arguments can construct
different requests. -/
theorem finger_shared_default_params (s0 : FingerDefaults)
    (res1 res2 r : String) (hrel : ¬ strEmpty r)
    (h0 : alistGet s0.params "rel" = none) :
    alistGet ((finger s0 res1 none (some r) none none).2).params "rel" =
      some r ∧
    alistGet ((finger ((finger s0 res1 none (some r) none none).2) res2 none
        none none none).1).params "rel" = some r ∧
    (finger s0 res2 none none none none).1 ≠
      (finger ((finger s0 res1 none (some r) none none).2) res2 none none
        none none).1 := by
  have hne : ("rel" : String) ≠ "resource" := by decide
  have hp1 : ((finger s0 res1 none (some r) none none).2).params =
      alistSet (alistSet s0.params "resource" res1) "rel" r := by
    simp [finger, hrel]
  have c1 : alistGet ((finger s0 res1 none (some r) none none).2).params
      "rel" = some r := by
    rw [hp1]
    exact alistGet_alistSet_self _ _ _
  have hreq2 : ((finger ((finger s0 res1 none (some r) none none).2) res2
      none none none none).1).params =
      alistSet ((finger s0 res1 none (some r) none none).2).params
        "resource" res2 := by
    simp [finger]
  have c2 : alistGet ((finger ((finger s0 res1 none (some r) none none).2)
      res2 none none none none).1).params "rel" = some r := by
    rw [hreq2, alistGet_alistSet_other _ _ _ _ hne, c1]
  refine ⟨c1, c2, ?_⟩
  intro heq
  have hL : alistGet ((finger s0 res2 none none none none).1).params "rel" =
      none := by
    have hfresh : ((finger s0 res2 none none none none).1).params =
        alistSet s0.params "resource" res2 := by
      simp [finger]
    rw [hfresh, alistGet_alistSet_other _ _ _ _ hne, h0]
  rw [heq, c2] at hL
  exact Option.noConfusion hL

/-- Witness for C10 at concrete calls starting from fresh empty default
dicts. -/
theorem finger_shared_default_params_witness :
    alistGet ((finger ⟨[], []⟩ "a@b" none (some "profile") none
      none).2).params "rel" = some "profile" ∧
    alistGet ((finger ((finger ⟨[], []⟩ "a@b" none (some "profile") none
      none).2) "c@d" none none none none).1).params "rel" = some "profile" ∧
    (finger (⟨[], []⟩ : FingerDefaults) "c@d" none none none none).1 ≠
      (finger ((finger ⟨[], []⟩ "a@b" none (some "profile") none none).2)
        "c@d" none none none none).1 :=
  finger_shared_default_params ⟨[], []⟩ "a@b" "c@d" "profile" (by decide) rfl
